import Mathlib

/-!
Verification of the shader-builder module (`ol/webgl/ShaderBuilder`).

The module consists of the `ShaderBuilder` class (a mutable builder whose two
render methods produce a vertex and a fragment GLSL program by string
concatenation) and the `parseLiteralStyle` function (which configures a builder
from a literal style object and returns attribute/uniform binding tables).

The expression compiler (`expressionToGlsl`, `getStringNumberEquivalent`,
`uniformNameForVariable`, `ValueTypes` from `ol/style/expressions`) is imported
by the module but is not part of the verified source; `parseLiteralStyle` is
therefore embedded parametrically over a compiler function of type
`GlslCompiler`, and the pieces of that external interface that the draw-time
closures use are modelled from the specification, with doc comments saying so.

Braces that occur inside generated GLSL text are written with the escapes
`\x7b` and `\x7d`.
-/

namespace OlShaderBuild

/-- A JavaScript-like value: style expression trees, variable values and
feature properties are JSON-like data (numbers, strings, booleans, arrays).
An absent / `undefined` value is represented by `Option` at the use site. -/
inductive JSVal where
  | num (n : Int)
  | str (s : String)
  | bool (b : Bool)
  | arr (xs : List JSVal)

/-- JavaScript truthiness for a `JSVal`: `0`, the empty string and `false`
are falsy; every array (object) is truthy. -/
def JSVal.truthy : JSVal → Bool
  | .num n => n != 0
  | .str s => s != ""
  | .bool b => b
  | .arr _ => true

/-- Truthiness of a possibly absent value: `undefined` is falsy. -/
def optTruthy : Option JSVal → Bool
  | none => false
  | some v => v.truthy

/-- A varying: name, GLSL type and the expression assigned to it in the
vertex shader (source: the `VaryingDescription` typedef). -/
structure VaryingDescription where
  name : String
  type : String
  expression : String

/-- The builder state: declaration lists, expression slots and the
rotate-with-view flag, with the defaults set in the source constructor. -/
structure ShaderBuilder where
  uniforms : List String := []
  attributes : List String := []
  varyings : List VaryingDescription := []
  sizeExpression : String := "vec2(1.0)"
  rotationExpression : String := "0.0"
  offsetExpression : String := "vec2(0.0)"
  colorExpression : String := "vec4(1.0)"
  texCoordExpression : String := "vec4(0.0, 0.0, 1.0, 1.0)"
  discardExpression : String := "false"
  rotateWithView : Bool := false

/-- `new ShaderBuilder()`. -/
def ShaderBuilder.new : ShaderBuilder := {}

/-- `addUniform`: appends to the uniform declaration list. -/
def ShaderBuilder.addUniform (b : ShaderBuilder) (name : String) : ShaderBuilder :=
  { b with uniforms := b.uniforms ++ [name] }

/-- `addAttribute`: appends to the attribute declaration list. -/
def ShaderBuilder.addAttribute (b : ShaderBuilder) (name : String) : ShaderBuilder :=
  { b with attributes := b.attributes ++ [name] }

/-- `addVarying`: appends a varying record. -/
def ShaderBuilder.addVarying (b : ShaderBuilder) (name type expression : String) :
    ShaderBuilder :=
  { b with varyings := b.varyings ++ [{ name := name, type := type, expression := expression }] }

/-- `setSizeExpression`. -/
def ShaderBuilder.setSizeExpression (b : ShaderBuilder) (expression : String) : ShaderBuilder :=
  { b with sizeExpression := expression }

/-- `setRotationExpression`. -/
def ShaderBuilder.setRotationExpression (b : ShaderBuilder) (expression : String) :
    ShaderBuilder :=
  { b with rotationExpression := expression }

/-- `setSymbolOffsetExpression`. -/
def ShaderBuilder.setSymbolOffsetExpression (b : ShaderBuilder) (expression : String) :
    ShaderBuilder :=
  { b with offsetExpression := expression }

/-- `setColorExpression`. -/
def ShaderBuilder.setColorExpression (b : ShaderBuilder) (expression : String) : ShaderBuilder :=
  { b with colorExpression := expression }

/-- `setTextureCoordinateExpression`. -/
def ShaderBuilder.setTextureCoordinateExpression (b : ShaderBuilder) (expression : String) :
    ShaderBuilder :=
  { b with texCoordExpression := expression }

/-- `setFragmentDiscardExpression`. -/
def ShaderBuilder.setFragmentDiscardExpression (b : ShaderBuilder) (expression : String) :
    ShaderBuilder :=
  { b with discardExpression := expression }

/-- `setSymbolRotateWithView`. -/
def ShaderBuilder.setSymbolRotateWithView (b : ShaderBuilder) (rotateWithView : Bool) :
    ShaderBuilder :=
  { b with rotateWithView := rotateWithView }

/-- `getColorExpression`. -/
def ShaderBuilder.getColorExpression (b : ShaderBuilder) : String := b.colorExpression

/-- `getSizeExpression`. -/
def ShaderBuilder.getSizeExpression (b : ShaderBuilder) : String := b.sizeExpression

/-- `getOffsetExpression`. -/
def ShaderBuilder.getOffsetExpression (b : ShaderBuilder) : String := b.offsetExpression

/-- `getTextureCoordinateExpression`. -/
def ShaderBuilder.getTextureCoordinateExpression (b : ShaderBuilder) : String :=
  b.texCoordExpression

/-- `getFragmentDiscardExpression`. -/
def ShaderBuilder.getFragmentDiscardExpression (b : ShaderBuilder) : String :=
  b.discardExpression

/-- `uniforms.map(u => 'uniform ' + u + ';').join('\n')`. -/
def uniformDeclarations (uniforms : List String) : String :=
  String.intercalate "\n" (uniforms.map (fun u => "uniform " ++ u ++ ";"))

/-- `attributes.map(a => 'attribute ' + a + ';').join('\n')`. -/
def attributeDeclarations (attributes : List String) : String :=
  String.intercalate "\n" (attributes.map (fun a => "attribute " ++ a ++ ";"))

/-- `varyings.map(v => 'varying ' + v.type + ' ' + v.name + ';').join('\n')`. -/
def varyingDeclarations (varyings : List VaryingDescription) : String :=
  String.intercalate "\n"
    (varyings.map (fun v => "varying " ++ v.type ++ " " ++ v.name ++ ";"))

/-- `varyings.map(v => '  ' + v.name + ' = ' + v.expression + ';').join('\n')`. -/
def varyingAssignments (varyings : List VaryingDescription) : String :=
  String.intercalate "\n"
    (varyings.map (fun v => "  " ++ v.name ++ " = " ++ v.expression ++ ";"))

/-- The extra varying added in hit-detection mode. -/
def hitVarying : VaryingDescription :=
  { name := "v_hitColor", type := "vec4", expression := "a_hitColor" }

/-- The local `attributes` list of `getSymbolVertexShader`: the builder's
attributes, extended (by `concat`, without mutating the builder) with
`vec4 a_hitColor` in hit-detection mode. -/
def hitAttributes (attributes : List String) (forHitDetection : Bool) : List String :=
  if forHitDetection then attributes ++ ["vec4 a_hitColor"] else attributes

/-- The local `varyings` list of both render methods: the builder's varyings,
extended (by `concat`, without mutating the builder) with `v_hitColor` in
hit-detection mode. -/
def hitVaryings (varyings : List VaryingDescription) (forHitDetection : Bool) :
    List VaryingDescription :=
  if forHitDetection then varyings ++ [hitVarying] else varyings

/-- The fixed header of the vertex program: precision qualifier and the six
hardcoded uniforms. -/
def vertexShaderHeader : String :=
  "precision mediump float;\nuniform mat4 u_projectionMatrix;\nuniform mat4 u_offsetScaleMatrix;\nuniform mat4 u_offsetRotateMatrix;\nuniform float u_time;\nuniform float u_zoom;\nuniform float u_resolution;\n"

/-- The fixed attribute block of the vertex program: the two hardcoded
per-vertex attributes. -/
def vertexFixedAttributes : String :=
  "\nattribute vec2 a_position;\nattribute float a_index;\n"

/-- The fixed varying block of the vertex program. -/
def vertexFixedVaryings : String :=
  "\nvarying vec2 v_texCoord;\nvarying vec2 v_quadCoord;\n"

/-- The fixed header of the fragment program: precision qualifier and the
three hardcoded uniforms. -/
def fragmentShaderHeader : String :=
  "precision mediump float;\nuniform float u_time;\nuniform float u_zoom;\nuniform float u_resolution;\n"

/-- The fixed varying block of the fragment program. -/
def fragmentFixedVaryings : String :=
  "\nvarying vec2 v_texCoord;\nvarying vec2 v_quadCoord;\n"

/-- The two-statement color-override tail appended to the fragment program in
hit-detection mode. -/
def hitDetectionBypassTail : String :=
  "  if (gl_FragColor.a < 0.1) \x7b discard; \x7d gl_FragColor = v_hitColor;"

/-- `getSymbolVertexShader(forHitDetection)`: renders the full vertex program
from the builder state by template substitution. -/
def ShaderBuilder.getSymbolVertexShader (b : ShaderBuilder) (forHitDetection : Bool) : String :=
  let offsetMatrix :=
    if b.rotateWithView then "u_offsetScaleMatrix * u_offsetRotateMatrix"
    else "u_offsetScaleMatrix"
  let attributes := hitAttributes b.attributes forHitDetection
  let varyings := hitVaryings b.varyings forHitDetection
  vertexShaderHeader ++ uniformDeclarations b.uniforms ++
  vertexFixedAttributes ++ attributeDeclarations attributes ++
  vertexFixedVaryings ++ varyingDeclarations varyings ++
  ("\nvoid main(void) \x7b\n  mat4 offsetMatrix = " ++ offsetMatrix ++
   ";\n  vec2 halfSize = " ++ b.sizeExpression ++ " * 0.5;\n  vec2 offset = " ++
   b.offsetExpression ++ ";\n  float angle = " ++ b.rotationExpression ++
   ";\n  float offsetX;\n  float offsetY;\n  if (a_index == 0.0) \x7b\n    offsetX = (offset.x - halfSize.x) * cos(angle) + (offset.y - halfSize.y) * sin(angle);\n    offsetY = (offset.y - halfSize.y) * cos(angle) - (offset.x - halfSize.x) * sin(angle);\n  \x7d else if (a_index == 1.0) \x7b\n    offsetX = (offset.x + halfSize.x) * cos(angle) + (offset.y - halfSize.y) * sin(angle);\n    offsetY = (offset.y - halfSize.y) * cos(angle) - (offset.x + halfSize.x) * sin(angle);\n  \x7d else if (a_index == 2.0) \x7b\n    offsetX = (offset.x + halfSize.x) * cos(angle) + (offset.y + halfSize.y) * sin(angle);\n    offsetY = (offset.y + halfSize.y) * cos(angle) - (offset.x + halfSize.x) * sin(angle);\n  \x7d else \x7b\n    offsetX = (offset.x - halfSize.x) * cos(angle) + (offset.y + halfSize.y) * sin(angle);\n    offsetY = (offset.y + halfSize.y) * cos(angle) - (offset.x - halfSize.x) * sin(angle);\n  \x7d\n  vec4 offsets = offsetMatrix * vec4(offsetX, offsetY, 0.0, 0.0);\n  gl_Position = u_projectionMatrix * vec4(a_position, 0.0, 1.0) + offsets;\n  vec4 texCoord = " ++
   b.texCoordExpression ++
   ";\n  float u = a_index == 0.0 || a_index == 3.0 ? texCoord.s : texCoord.p;\n  float v = a_index == 2.0 || a_index == 3.0 ? texCoord.t : texCoord.q;\n  v_texCoord = vec2(u, v);\n  u = a_index == 0.0 || a_index == 3.0 ? 0.0 : 1.0;\n  v = a_index == 2.0 || a_index == 3.0 ? 0.0 : 1.0;\n  v_quadCoord = vec2(u, v);\n" ++
   varyingAssignments varyings ++ "\n\x7d")

/-- `getSymbolFragmentShader(forHitDetection)`: renders the full fragment
program from the builder state by template substitution. -/
def ShaderBuilder.getSymbolFragmentShader (b : ShaderBuilder) (forHitDetection : Bool) : String :=
  let hitDetectionBypass := if forHitDetection then hitDetectionBypassTail else ""
  let varyings := hitVaryings b.varyings forHitDetection
  fragmentShaderHeader ++ uniformDeclarations b.uniforms ++
  fragmentFixedVaryings ++ varyingDeclarations varyings ++
  ("\nvoid main(void) \x7b\n  if (" ++ b.discardExpression ++
   ") \x7b discard; \x7d\n  gl_FragColor = " ++ b.colorExpression ++
   ";\n  gl_FragColor.rgb *= gl_FragColor.a;\n") ++
  hitDetectionBypass ++ "\n\x7d"

/-- The render methods as state transformers on the builder: the source method
bodies only read `this` fields and extend the local lists with `concat`
(which copies); they contain no assignment to any field of `this`, so the
builder state after a call is the state before it. -/
def ShaderBuilder.getSymbolVertexShaderRun (b : ShaderBuilder) (forHitDetection : Bool) :
    String × ShaderBuilder :=
  (b.getSymbolVertexShader forHitDetection, b)

/-- `getSymbolFragmentShader` as a state transformer on the builder; as for
the vertex variant, the source body performs no mutation of `this`. -/
def ShaderBuilder.getSymbolFragmentShaderRun (b : ShaderBuilder) (forHitDetection : Bool) :
    String × ShaderBuilder :=
  (b.getSymbolFragmentShader forHitDetection, b)

/-- The `symbol` part of a literal style. Fields other than the shape tag are
optional; an absent field and a field explicitly set to `undefined` are both
`none` (JavaScript cannot distinguish them through the accesses the source
performs). `src` and `crossOrigin` are strings in the style typedef. -/
structure SymbolStyle where
  symbolType : String
  size : Option JSVal := none
  color : Option JSVal := none
  textureCoord : Option JSVal := none
  offset : Option JSVal := none
  opacity : Option JSVal := none
  rotation : Option JSVal := none
  rotateWithView : Option JSVal := none
  src : Option String := none
  crossOrigin : Option String := none

/-- A literal style: the symbol description, an optional filter expression
and an optional variable map. A map entry `(k, none)` is a key that is
present with an `undefined` value. -/
structure LiteralStyle where
  symbol : SymbolStyle
  filter : Option JSVal := none
  variables' : Option (List (String × Option JSVal)) := none

/-- A parsing context of the external expression compiler: the collected
style-variable names, the collected feature-attribute names, the shared
string-literal code table, and the helper-function side table. -/
structure ParsingContext where
  inFragmentShader : Bool
  variables' : List String
  attributes : List String
  stringLiteralsMap : List (String × Int)
  functions : List (String × String)

/-- The interface of the external `expressionToGlsl`: given a context, an
expression and the accepted type mask, produce a GLSL string and the updated
context (the source mutates the context in place; the embedding threads it). -/
def GlslCompiler : Type :=
  ParsingContext → JSVal → Nat → String × ParsingContext

/-- Modelled from the spec: the `ValueTypes` bit masks of the external
expression compiler (`ol/style/expressions` is not under src). They are opaque
tags passed to the compiler; only their distinctness matters here. -/
def ValueTypes.BOOLEAN : Nat := 1

/-- Modelled from the spec: see `ValueTypes.BOOLEAN`. -/
def ValueTypes.NUMBER : Nat := 2

/-- Modelled from the spec: see `ValueTypes.BOOLEAN`. -/
def ValueTypes.STRING : Nat := 4

/-- Modelled from the spec: see `ValueTypes.BOOLEAN`. -/
def ValueTypes.COLOR : Nat := 8

/-- Modelled from the spec: see `ValueTypes.BOOLEAN`. -/
def ValueTypes.NUMBER_ARRAY : Nat := 16

/-- Modelled from the spec: `uniformNameForVariable` of the external
expression compiler derives the uniform identifier for a style variable
("declare one scalar uniform per variable"). -/
def uniformNameForVariable (variableName : String) : String :=
  "u_var_" ++ variableName

/-- Modelled from the spec: `getStringNumberEquivalent` of the external
expression compiler converts a string value to its pre-assigned numeric code
via the shared literal table; a string with no assigned code yields no number
(`undefined` in the source, `none` here). -/
def getStringNumberEquivalent (stringLiteralsMap : List (String × Int)) (s : String) :
    Option Int :=
  (stringLiteralsMap.find? (fun p => p.1 == s)).map (fun p => p.2)

/-- `symbStyle.size !== undefined ? symbStyle.size : dflt`: explicit
`undefined` check, a present falsy value is kept. -/
def undefinedDefault (v : Option JSVal) (dflt : JSVal) : JSVal :=
  match v with
  | some x => x
  | none => dflt

/-- `symbStyle.color || dflt`: JavaScript truthiness check, a present falsy
value is replaced by the default as well. -/
def falsyDefault (v : Option JSVal) (dflt : JSVal) : JSVal :=
  match v with
  | some x => if x.truthy then x else dflt
  | none => dflt

/-- The six defaulted local values of `parseLiteralStyle` (source lines
332 to 337): `size`, `rotation` and `opacity` use an explicit `undefined`
check; `color`, `textureCoord` and `offset` use `||`. -/
structure DefaultedFields where
  size : JSVal
  color : JSVal
  texCoord : JSVal
  offset : JSVal
  opacity : JSVal
  rotation : JSVal

/-- Compute the defaulted style fields. -/
def defaultedFields (symbStyle : SymbolStyle) : DefaultedFields :=
  { size := undefinedDefault symbStyle.size (.num 1)
    color := falsyDefault symbStyle.color (.str "white")
    texCoord := falsyDefault symbStyle.textureCoord (.arr [.num 0, .num 0, .num 1, .num 1])
    offset := falsyDefault symbStyle.offset (.arr [.num 0, .num 0])
    opacity := undefinedDefault symbStyle.opacity (.num 1)
    rotation := undefinedDefault symbStyle.rotation (.num 0) }

/-- The fresh vertex-side parsing context created by `parseLiteralStyle`. -/
def vertContext0 : ParsingContext :=
  { inFragmentShader := false
    variables' := []
    attributes := []
    stringLiteralsMap := []
    functions := [] }

/-- The outcome of the four vertex-side compiler calls. -/
structure VertexParseOut where
  parsedSize : String
  parsedOffset : String
  parsedTexCoord : String
  parsedRotation : String
  ctx : ParsingContext

/-- Compile size, offset, texture coordinates and rotation vertex-side,
threading the context through the four calls in source order. -/
def vertexParse (compile : GlslCompiler) (d : DefaultedFields) : VertexParseOut :=
  let r1 := compile vertContext0 d.size (ValueTypes.NUMBER_ARRAY ||| ValueTypes.NUMBER)
  let r2 := compile r1.2 d.offset ValueTypes.NUMBER_ARRAY
  let r3 := compile r2.2 d.texCoord ValueTypes.NUMBER_ARRAY
  let r4 := compile r3.2 d.rotation ValueTypes.NUMBER
  { parsedSize := r1.1
    parsedOffset := r2.1
    parsedTexCoord := r3.1
    parsedRotation := r4.1
    ctx := r4.2 }

/-- The fragment-side context: fresh attribute set and function table, while
`variables` and `stringLiteralsMap` are shared with the vertex-side context
(shared by reference in the source; the embedding copies the current values
in and reads the final values back out of the fragment-side context). -/
def fragContext0 (vertCtx : ParsingContext) : ParsingContext :=
  { inFragmentShader := true
    variables' := vertCtx.variables'
    attributes := []
    stringLiteralsMap := vertCtx.stringLiteralsMap
    functions := [] }

/-- The outcome of the three fragment-side compiler calls performed before
the symbol-shape switch. -/
structure FragmentParseOut where
  parsedColor : String
  parsedOpacity : String
  sizeGlsl : String
  ctx : ParsingContext

/-- Compile color and opacity fragment-side, then compile the size expression
again fragment-side for the `visibleSize` term, in source order. -/
def fragmentParse (compile : GlslCompiler) (d : DefaultedFields) (fragCtx : ParsingContext) :
    FragmentParseOut :=
  let r1 := compile fragCtx d.color ValueTypes.COLOR
  let r2 := compile r1.2 d.opacity ValueTypes.NUMBER
  let r3 := compile r2.2 d.size (ValueTypes.NUMBER_ARRAY ||| ValueTypes.NUMBER)
  { parsedColor := r1.1
    parsedOpacity := r2.1
    sizeGlsl := r3.1
    ctx := r3.2 }

/-- The smoothed disk cutoff applied for `circle` symbols. -/
def circleMask (visibleSize : String) : String :=
  "(1.0-smoothstep(1.-4./" ++ visibleSize ++ ",1.,dot(v_quadCoord-.5,v_quadCoord-.5)*4.))"

/-- The smoothed equilateral-triangle cutoff applied for `triangle` symbols. -/
def triangleMask (visibleSize : String) : String :=
  let st := "(v_quadCoord*2.-1.)"
  let a := "(atan(" ++ st ++ ".x," ++ st ++ ".y))"
  "(1.0-smoothstep(.5-3./" ++ visibleSize ++ ",.5,cos(floor(.5+" ++ a ++
    "/2.094395102)*2.094395102-" ++ a ++ ")*length(" ++ st ++ ")))"

/-- The symbol-shape switch: the opacity mask formula per shape tag, or the
error thrown for an unknown tag. `square` and `image` apply no mask. -/
def opacityFilterFor (symbolType : String) (visibleSize : String) : Except String String :=
  if symbolType = "square" then .ok "1.0"
  else if symbolType = "image" then .ok "1.0"
  else if symbolType = "circle" then .ok (circleMask visibleSize)
  else if symbolType = "triangle" then .ok (triangleMask visibleSize)
  else .error ("Unexpected symbol type: " ++ symbolType)

/-- `if (style.filter) { ... }`: compile the filter fragment-side when it is
present and truthy, returning the compiled string and the updated context. -/
def filterParse (compile : GlslCompiler) (filter : Option JSVal) (ctx : ParsingContext) :
    Option String × ParsingContext :=
  match filter with
  | some f =>
      if f.truthy then
        let r := compile ctx f ValueTypes.BOOLEAN
        (some r.1, r.2)
      else (none, ctx)
  | none => (none, ctx)

/-- Vertex-side compilation outcome for a style. -/
def parsedVertex (compile : GlslCompiler) (style : LiteralStyle) : VertexParseOut :=
  vertexParse compile (defaultedFields style.symbol)

/-- Fragment-side compilation outcome for a style. -/
def parsedFragment (compile : GlslCompiler) (style : LiteralStyle) : FragmentParseOut :=
  fragmentParse compile (defaultedFields style.symbol)
    (fragContext0 (parsedVertex compile style).ctx)

/-- The `visibleSize` term used by the circle and triangle masks. -/
def visibleSizeOf (compile : GlslCompiler) (style : LiteralStyle) : String :=
  "vec2(" ++ (parsedFragment compile style).sizeGlsl ++ ").x"

/-- Filter compilation outcome for a style. -/
def filterResult (compile : GlslCompiler) (style : LiteralStyle) :
    Option String × ParsingContext :=
  filterParse compile style.filter (parsedFragment compile style).ctx

/-- The fragment-side context after every compiler call of one style
compilation; its `variables` and `stringLiteralsMap` are the final contents
of the arrays shared by reference with the vertex-side context. -/
def finalFragContext (compile : GlslCompiler) (style : LiteralStyle) : ParsingContext :=
  (filterResult compile style).2

/-- The final shared string-literal table; the draw-time closures created by
`parseLiteralStyle` read the shared table, hence its final contents. -/
def finalLiteralsMap (compile : GlslCompiler) (style : LiteralStyle) : List (String × Int) :=
  (finalFragContext compile style).stringLiteralsMap

/-- The final vertex-side attribute list: for each fragment-side attribute
not already known vertex-side, push it (source lines 423 to 428). -/
def finalVertexAttributes (compile : GlslCompiler) (style : LiteralStyle) : List String :=
  (finalFragContext compile style).attributes.foldl
    (fun acc attrName => if attrName ∈ acc then acc else acc ++ [attrName])
    (parsedVertex compile style).ctx.attributes

/-- `style.variables && style.variables[varName]` flattened: `undefined` when
the map is absent, the key is absent, or the key is present with an
`undefined` value — JavaScript cannot distinguish these three through
`style.variables[varName] === undefined`. -/
def jsVarLookup (vars : Option (List (String × Option JSVal))) (varName : String) :
    Option JSVal :=
  match vars with
  | none => none
  | some vars =>
      match vars.find? (fun p => p.1 == varName) with
      | none => none
      | some p => p.2

/-- The value-producing function registered for one style variable (source
lines 400 to 409): throw when the variable is `undefined` in the style,
convert a string through the shared literal table, and fall back to the
sentinel `-9999999` when the converted value is `undefined`. -/
def variableUniformValue (vars : Option (List (String × Option JSVal)))
    (stringLiteralsMap : List (String × Int)) (varName : String) : Except String JSVal :=
  match jsVarLookup vars varName with
  | none => .error ("The following variable is missing from the style: " ++ varName)
  | some value =>
      match value with
      | .str s =>
          match getStringNumberEquivalent stringLiteralsMap s with
          | some code => .ok (.num code)
          | none => .ok (.num (-9999999))
      | v => .ok v

/-- The value-extraction callback registered for one feature attribute
(source lines 438 to 444): read the property, convert a string through the
shared literal table, and fall back to the sentinel `-9999999` when the value
is `undefined`. -/
def attributeCallback (stringLiteralsMap : List (String × Int)) (attributeName : String) :
    (String → Option JSVal) → JSVal :=
  fun props =>
    match props attributeName with
    | some (.str s) =>
        match getStringNumberEquivalent stringLiteralsMap s with
        | some code => .num code
        | none => .num (-9999999)
    | some v => v
    | none => .num (-9999999)

/-- The image handle created for an image-shaped symbol with a source. -/
structure TextureImage where
  crossOrigin : String
  src : String

/-- A uniform binding: a value-producing function (embedded as its result)
or a loaded-image handle. -/
inductive UniformValue where
  | value (v : Except String JSVal)
  | texture (t : TextureImage)

/-- One attribute binding of the compilation result. -/
structure AttributeDescription where
  name : String
  callback : (String → Option JSVal) → JSVal

/-- The `StyleParseResult` record. -/
structure StyleParseResult where
  builder : ShaderBuilder
  attributes : List AttributeDescription
  uniforms : List (String × UniformValue)

/-- `symbStyle.symbolType === 'image' && symbStyle.src`: the guard of the
texture block; `src` must be present and truthy (non-empty). -/
def hasImageTexture (symbStyle : SymbolStyle) : Bool :=
  symbStyle.symbolType == "image" &&
    (match symbStyle.src with
     | some s => s != ""
     | none => false)

/-- `symbStyle.crossOrigin === undefined ? 'anonymous' : symbStyle.crossOrigin`. -/
def crossOriginOf (symbStyle : SymbolStyle) : String :=
  match symbStyle.crossOrigin with
  | none => "anonymous"
  | some co => co

/-- The `src` assigned to the texture image (the guard guarantees presence). -/
def srcOf (symbStyle : SymbolStyle) : String :=
  match symbStyle.src with
  | some s => s
  | none => ""

/-- The assembled color expression of source line 389:
`vec4(color.rgb, color.a * opacity * mask)`. -/
def baseColorExpr (compile : GlslCompiler) (style : LiteralStyle) (opacityFilter : String) :
    String :=
  "vec4(" ++ (parsedFragment compile style).parsedColor ++ ".rgb, " ++
  (parsedFragment compile style).parsedColor ++ ".a * " ++
  (parsedFragment compile style).parsedOpacity ++ " * " ++ opacityFilter ++ ")"

/-- Everything `parseLiteralStyle` does after the symbol-shape switch has
produced the opacity mask: configure the builder, compile the filter, define
the per-variable uniforms, handle the texture block, bridge fragment-side
attributes through varyings, declare vertex attributes and assemble the
result record — in source order. -/
def buildParseResult (compile : GlslCompiler) (style : LiteralStyle) (opacityFilter : String) :
    StyleParseResult :=
  let vp := parsedVertex compile style
  let builder0 :=
    (((((ShaderBuilder.new.setSizeExpression ("vec2(" ++ vp.parsedSize ++ ")")
      ).setRotationExpression vp.parsedRotation
      ).setSymbolOffsetExpression vp.parsedOffset
      ).setTextureCoordinateExpression vp.parsedTexCoord
      ).setSymbolRotateWithView (optTruthy style.symbol.rotateWithView)
      ).setColorExpression (baseColorExpr compile style opacityFilter)
  let builder1 :=
    match (filterResult compile style).1 with
    | some parsedFilter => builder0.setFragmentDiscardExpression ("!" ++ parsedFilter)
    | none => builder0
  let vars := (finalFragContext compile style).variables'
  let litMap := finalLiteralsMap compile style
  let builder2 :=
    vars.foldl (fun b varName => b.addUniform ("float " ++ uniformNameForVariable varName))
      builder1
  let uniforms0 :=
    vars.map (fun varName =>
      (uniformNameForVariable varName,
       UniformValue.value (variableUniformValue style.variables' litMap varName)))
  let withTexture :=
    if hasImageTexture style.symbol then
      ((builder2.addUniform "sampler2D u_texture").setColorExpression
         (builder2.getColorExpression ++ " * texture2D(u_texture, v_texCoord)"),
       uniforms0 ++
         [("u_texture",
           UniformValue.texture
             { crossOrigin := crossOriginOf style.symbol, src := srcOf style.symbol })])
    else (builder2, uniforms0)
  let builder3 := withTexture.1
  let fragAttrs := (finalFragContext compile style).attributes
  let builder4 :=
    fragAttrs.foldl
      (fun b attrName => b.addVarying ("v_" ++ attrName) "float" ("a_" ++ attrName)) builder3
  let vertAttrs := finalVertexAttributes compile style
  let builder5 :=
    vertAttrs.foldl (fun b attrName => b.addAttribute ("float a_" ++ attrName)) builder4
  { builder := builder5
    attributes :=
      vertAttrs.map (fun attributeName =>
        { name := attributeName, callback := attributeCallback litMap attributeName })
    uniforms := withTexture.2 }

/-- `parseLiteralStyle(style)`: the unknown-shape error of the symbol switch
aborts the compilation before the builder is created; otherwise the
configured builder and the binding tables are returned. -/
def parseLiteralStyle (compile : GlslCompiler) (style : LiteralStyle) :
    Except String StyleParseResult :=
  match opacityFilterFor style.symbol.symbolType (visibleSizeOf compile style) with
  | .error e => .error e
  | .ok opacityFilter => .ok (buildParseResult compile style opacityFilter)

/-- Modelled from the spec: formatting of a numeric literal as GLSL float
text, as done by the external expression compiler. -/
def glslNumber (n : Int) : String :=
  toString n ++ ".0"

/-- Modelled from the spec: assign a string literal its numeric code in the
shared literal table, creating the next code when the literal is new, so that
identical string literals resolve to the same code. -/
def assignStringCode (stringLiteralsMap : List (String × Int)) (s : String) :
    Int × List (String × Int) :=
  match (stringLiteralsMap.find? (fun p => p.1 == s)).map (fun p => p.2) with
  | some code => (code, stringLiteralsMap)
  | none =>
      ((stringLiteralsMap.length : Int),
       stringLiteralsMap ++ [(s, (stringLiteralsMap.length : Int))])

/-- Modelled from the spec: one concrete instance of the external expression
compiler's behaviour on atomic expressions — number, string, boolean
literals, a `var` reference (recorded in the context's variable set, compiled
to its uniform name) and a `get` reference (recorded in the context's
attribute set, compiled to the attribute name vertex-side and to the bridging
varying name fragment-side). A plain array compiles to a vector constructor
of its numeric entries. Used to instantiate the parametric theorems on
concrete inputs. -/
def specCompileAtom (ctx : ParsingContext) (e : JSVal) : String × ParsingContext :=
  match e with
  | .num n => (glslNumber n, ctx)
  | .str s =>
      let r := assignStringCode ctx.stringLiteralsMap s
      (glslNumber r.1, { ctx with stringLiteralsMap := r.2 })
  | .bool b => (if b then "true" else "false", ctx)
  | .arr [.str "var", .str name] =>
      (uniformNameForVariable name,
       { ctx with
           variables' :=
             if name ∈ ctx.variables' then ctx.variables' else ctx.variables' ++ [name] })
  | .arr [.str "get", .str name] =>
      ((if ctx.inFragmentShader then "v_" ++ name else "a_" ++ name),
       { ctx with
           attributes :=
             if name ∈ ctx.attributes then ctx.attributes else ctx.attributes ++ [name] })
  | .arr xs =>
      ("vec" ++ toString xs.length ++ "(" ++
         String.intercalate ", "
           (xs.map (fun x =>
             match x with
             | .num n => glslNumber n
             | _ => "0.0")) ++ ")",
       ctx)

/-- Modelled from the spec: the concrete compiler instance; an operator form
`[op, arg1, ...]` (other than `var`/`get`) compiles its arguments as atoms in
order, threading the context, and renders `op(arg1, ...)`. The accepted-type
mask is ignored by this instance. -/
def specCompile : GlslCompiler := fun ctx e _ty =>
  match e with
  | .arr (.str "var" :: rest) => specCompileAtom ctx (.arr (.str "var" :: rest))
  | .arr (.str "get" :: rest) => specCompileAtom ctx (.arr (.str "get" :: rest))
  | .arr (.str op :: args) =>
      let folded :=
        args.foldl
          (fun acc argument =>
            let r := specCompileAtom acc.2 argument
            (acc.1 ++ [r.1], r.2))
          (([] : List String), ctx)
      (op ++ "(" ++ String.intercalate ", " folded.1 ++ ")", folded.2)
  | e => specCompileAtom ctx e

/-- The symbol record with the defaults of spec step 1 (as amended) applied
explicitly: `size`, `opacity` and `rotation` default exactly when the field
is `undefined` (so a present `0` is preserved), while `color`,
`texture-rectangle` and `offset` default whenever the present value is falsy
(e.g. an empty-string color) as well as when absent. Written from the
amended claim's words, for comparison with the source-translated
`defaultedFields`. -/
def explicitDefaultsSymbol (s : SymbolStyle) : SymbolStyle :=
  { s with
      size := some (match s.size with
        | some v => v
        | none => .num 1),
      color := some (match s.color with
        | some v => if v.truthy then v else .str "white"
        | none => .str "white"),
      textureCoord := some (match s.textureCoord with
        | some v => if v.truthy then v else .arr [.num 0, .num 0, .num 1, .num 1]
        | none => .arr [.num 0, .num 0, .num 1, .num 1]),
      offset := some (match s.offset with
        | some v => if v.truthy then v else .arr [.num 0, .num 0]
        | none => .arr [.num 0, .num 0]),
      opacity := some (match s.opacity with
        | some v => v
        | none => .num 1),
      rotation := some (match s.rotation with
        | some v => v
        | none => .num 0) }

/-- A style with the explicit defaults pre-applied to its symbol. -/
def explicitDefaults (style : LiteralStyle) : LiteralStyle :=
  { style with symbol := explicitDefaultsSymbol style.symbol }

/-- Concrete style: a plain square of size 2. -/
def c1Style : LiteralStyle :=
  { symbol := { symbolType := "square", size := some (.num 2) } }

/-- Concrete style: an unknown symbol shape tag. -/
def c2Style : LiteralStyle :=
  { symbol := { symbolType := "hexagon" } }

/-- Concrete style: the color references a style variable whose key is
present in the variable map with an `undefined` value. -/
def c3CounterStyle : LiteralStyle :=
  { symbol := { symbolType := "square", color := some (.arr [.str "var", .str "mycolor"]) },
    variables' := some [("mycolor", none)] }

/-- Concrete style: the color references a style variable whose value is a
string with no assigned code in the literal table. -/
def c3WitnessStyle : LiteralStyle :=
  { symbol := { symbolType := "square", color := some (.arr [.str "var", .str "c"]) },
    variables' := some [("c", some (.str "red"))] }

/-- Concrete symbol: a present but falsy (empty-string) color. -/
def c6CounterSymbol : SymbolStyle :=
  { symbolType := "square", color := some (.str "") }

/-- Concrete style: the color reads the feature attribute `speed`. -/
def c7Style : LiteralStyle :=
  { symbol := { symbolType := "square", color := some (.arr [.str "get", .str "speed"]) } }

/-- Concrete style: a present filter that is the falsy literal `false`. -/
def c8CounterStyle : LiteralStyle :=
  { symbol := { symbolType := "square" }, filter := some (.bool false) }

/-- Concrete style: a present truthy filter expression. -/
def c8WitnessStyle : LiteralStyle :=
  { symbol := { symbolType := "square" },
    filter := some (.arr [.str ">", .arr [.str "get", .str "speed"], .num 5]) }

/-- String append is associative (used to regroup generated shader text). -/
theorem strAppendAssoc (a b c : String) : a ++ b ++ c = a ++ (b ++ c) := by
  cases a with
  | mk da =>
    cases b with
    | mk db =>
      cases c with
      | mk dc => exact congrArg String.mk (List.append_assoc da db dc)

/-- Appending the empty string on the right is the identity. -/
theorem strAppendEmpty (s : String) : s ++ "" = s := by
  cases s with
  | mk d => exact congrArg String.mk (List.append_nil d)

theorem foldl_addUniform_eq (l : List String) (b : ShaderBuilder) :
    l.foldl (fun b varName => b.addUniform ("float " ++ uniformNameForVariable varName)) b =
      { b with
          uniforms := b.uniforms ++ l.map (fun varName => "float " ++ uniformNameForVariable varName) } := by
  induction l generalizing b with
  | nil => simp
  | cons x xs ih =>
      rw [List.foldl_cons, ih]
      simp [ShaderBuilder.addUniform]

theorem foldl_addVarying_eq (l : List String) (b : ShaderBuilder) :
    l.foldl (fun b attrName => b.addVarying ("v_" ++ attrName) "float" ("a_" ++ attrName)) b =
      { b with
          varyings :=
            b.varyings ++
              l.map (fun attrName =>
                { name := "v_" ++ attrName, type := "float",
                  expression := "a_" ++ attrName : VaryingDescription }) } := by
  induction l generalizing b with
  | nil => simp
  | cons x xs ih =>
      rw [List.foldl_cons, ih]
      simp [ShaderBuilder.addVarying]

theorem foldl_addAttribute_eq (l : List String) (b : ShaderBuilder) :
    l.foldl (fun b attrName => b.addAttribute ("float a_" ++ attrName)) b =
      { b with
          attributes := b.attributes ++ l.map (fun attrName => "float a_" ++ attrName) } := by
  induction l generalizing b with
  | nil => simp
  | cons x xs ih =>
      rw [List.foldl_cons, ih]
      simp [ShaderBuilder.addAttribute]

/-- Full characterization of the record returned by `buildParseResult`:
every builder field and both binding tables, as functions of the compilation
helpers. -/
theorem buildParseResult_eq (compile : GlslCompiler) (style : LiteralStyle)
    (opacityFilter : String) :
    buildParseResult compile style opacityFilter =
      { builder :=
          { uniforms :=
              ((finalFragContext compile style).variables'.map
                 (fun varName => "float " ++ uniformNameForVariable varName)) ++
                (if hasImageTexture style.symbol then ["sampler2D u_texture"] else []),
            attributes :=
              (finalVertexAttributes compile style).map (fun n => "float a_" ++ n),
            varyings :=
              (finalFragContext compile style).attributes.map
                (fun n =>
                  { name := "v_" ++ n, type := "float",
                    expression := "a_" ++ n : VaryingDescription }),
            sizeExpression := "vec2(" ++ (parsedVertex compile style).parsedSize ++ ")",
            rotationExpression := (parsedVertex compile style).parsedRotation,
            offsetExpression := (parsedVertex compile style).parsedOffset,
            colorExpression :=
              (if hasImageTexture style.symbol then
                 baseColorExpr compile style opacityFilter ++ " * texture2D(u_texture, v_texCoord)"
               else baseColorExpr compile style opacityFilter),
            texCoordExpression := (parsedVertex compile style).parsedTexCoord,
            discardExpression :=
              (match (filterResult compile style).1 with
               | some parsedFilter => "!" ++ parsedFilter
               | none => "false"),
            rotateWithView := optTruthy style.symbol.rotateWithView },
        attributes :=
          (finalVertexAttributes compile style).map
            (fun attributeName =>
              { name := attributeName,
                callback := attributeCallback (finalLiteralsMap compile style) attributeName }),
        uniforms :=
          ((finalFragContext compile style).variables'.map
             (fun varName =>
               (uniformNameForVariable varName,
                UniformValue.value
                  (variableUniformValue style.variables' (finalLiteralsMap compile style)
                    varName)))) ++
            (if hasImageTexture style.symbol then
               [("u_texture",
                 UniformValue.texture
                   { crossOrigin := crossOriginOf style.symbol, src := srcOf style.symbol })]
             else []) } := by
  simp only [buildParseResult]
  rw [foldl_addUniform_eq, foldl_addVarying_eq, foldl_addAttribute_eq]
  cases hm : (filterResult compile style).1 <;>
    cases hi : hasImageTexture style.symbol <;>
      simp [hm, hi, ShaderBuilder.new, ShaderBuilder.setSizeExpression,
        ShaderBuilder.setRotationExpression, ShaderBuilder.setSymbolOffsetExpression,
        ShaderBuilder.setTextureCoordinateExpression, ShaderBuilder.setSymbolRotateWithView,
        ShaderBuilder.setColorExpression, ShaderBuilder.setFragmentDiscardExpression,
        ShaderBuilder.addUniform, ShaderBuilder.getColorExpression]

/-- When the symbol switch produces a mask, `parseLiteralStyle` returns the
assembled result for that mask. -/
theorem parse_ok (compile : GlslCompiler) (style : LiteralStyle) (mask : String)
    (hmask : opacityFilterFor style.symbol.symbolType (visibleSizeOf compile style) = .ok mask) :
    parseLiteralStyle compile style = .ok (buildParseResult compile style mask) := by
  unfold parseLiteralStyle
  rw [hmask]

/-- Membership in the accumulator is preserved by the dedupe-push fold. -/
theorem dedup_foldl_mem_mono (l : List String) (acc : List String) (n : String)
    (h : n ∈ acc) :
    n ∈ l.foldl (fun acc attrName => if attrName ∈ acc then acc else acc ++ [attrName]) acc := by
  induction l generalizing acc with
  | nil => exact h
  | cons x xs ih =>
      rw [List.foldl_cons]
      apply ih
      by_cases hx : x ∈ acc
      · rw [if_pos hx]; exact h
      · rw [if_neg hx]; exact List.mem_append_left _ h

/-- Every element of the pushed list is in the result of the dedupe-push
fold. -/
theorem dedup_foldl_mem (l : List String) (acc : List String) (n : String) (h : n ∈ l) :
    n ∈ l.foldl (fun acc attrName => if attrName ∈ acc then acc else acc ++ [attrName]) acc := by
  induction l generalizing acc with
  | nil => cases h
  | cons x xs ih =>
      rw [List.foldl_cons]
      rcases List.mem_cons.mp h with rfl | hn
      · apply dedup_foldl_mem_mono
        by_cases hx : n ∈ acc
        · rw [if_pos hx]; exact hx
        · rw [if_neg hx]; exact List.mem_append_right _ (List.mem_singleton.mpr rfl)
      · exact ih _ hn

theorem undefinedDefault_explicit (v : Option JSVal) (d : JSVal) :
    undefinedDefault (some (match v with | some x => x | none => d)) d = undefinedDefault v d := by
  cases v <;> rfl

theorem falsyDefault_explicit (v : Option JSVal) (d : JSVal) :
    falsyDefault (some (match v with | some x => if x.truthy then x else d | none => d)) d =
      falsyDefault v d := by
  cases v with
  | none => simp [falsyDefault]
  | some x => cases hx : x.truthy <;> simp [falsyDefault, hx]

/-- Applying the explicit defaults to the symbol does not change the
defaulted field values computed by the source. -/
theorem defaultedFields_explicit (s : SymbolStyle) :
    defaultedFields (explicitDefaultsSymbol s) = defaultedFields s := by
  unfold defaultedFields
  simp only [explicitDefaultsSymbol]
  rw [undefinedDefault_explicit, falsyDefault_explicit, falsyDefault_explicit,
    falsyDefault_explicit, undefinedDefault_explicit, undefinedDefault_explicit]

theorem parsedVertex_explicit (compile : GlslCompiler) (style : LiteralStyle) :
    parsedVertex compile (explicitDefaults style) = parsedVertex compile style := by
  unfold parsedVertex
  show vertexParse compile (defaultedFields (explicitDefaultsSymbol style.symbol)) = _
  rw [defaultedFields_explicit]

theorem parsedFragment_explicit (compile : GlslCompiler) (style : LiteralStyle) :
    parsedFragment compile (explicitDefaults style) = parsedFragment compile style := by
  unfold parsedFragment
  rw [parsedVertex_explicit]
  show fragmentParse compile (defaultedFields (explicitDefaultsSymbol style.symbol)) _ = _
  rw [defaultedFields_explicit]

theorem visibleSizeOf_explicit (compile : GlslCompiler) (style : LiteralStyle) :
    visibleSizeOf compile (explicitDefaults style) = visibleSizeOf compile style := by
  unfold visibleSizeOf
  rw [parsedFragment_explicit]

theorem filterResult_explicit (compile : GlslCompiler) (style : LiteralStyle) :
    filterResult compile (explicitDefaults style) = filterResult compile style := by
  unfold filterResult
  rw [parsedFragment_explicit]
  rfl

theorem finalFragContext_explicit (compile : GlslCompiler) (style : LiteralStyle) :
    finalFragContext compile (explicitDefaults style) = finalFragContext compile style := by
  unfold finalFragContext
  rw [filterResult_explicit]

theorem finalLiteralsMap_explicit (compile : GlslCompiler) (style : LiteralStyle) :
    finalLiteralsMap compile (explicitDefaults style) = finalLiteralsMap compile style := by
  unfold finalLiteralsMap
  rw [finalFragContext_explicit]

theorem finalVertexAttributes_explicit (compile : GlslCompiler) (style : LiteralStyle) :
    finalVertexAttributes compile (explicitDefaults style) =
      finalVertexAttributes compile style := by
  unfold finalVertexAttributes
  rw [finalFragContext_explicit, parsedVertex_explicit]

theorem baseColorExpr_explicit (compile : GlslCompiler) (style : LiteralStyle) (mask : String) :
    baseColorExpr compile (explicitDefaults style) mask = baseColorExpr compile style mask := by
  unfold baseColorExpr
  rw [parsedFragment_explicit]

theorem buildParseResult_explicit (compile : GlslCompiler) (style : LiteralStyle)
    (mask : String) :
    buildParseResult compile (explicitDefaults style) mask =
      buildParseResult compile style mask := by
  rw [buildParseResult_eq, buildParseResult_eq, finalFragContext_explicit,
    finalLiteralsMap_explicit, finalVertexAttributes_explicit, parsedVertex_explicit,
    baseColorExpr_explicit, filterResult_explicit]
  exact rfl

/-- The fragment program without hit detection, with the trailing empty
bypass slot removed. -/
theorem getSymbolFragmentShader_false_eq (b : ShaderBuilder) :
    b.getSymbolFragmentShader false =
      fragmentShaderHeader ++ uniformDeclarations b.uniforms ++ fragmentFixedVaryings ++
        varyingDeclarations b.varyings ++
        ("\nvoid main(void) \x7b\n  if (" ++ b.discardExpression ++
         ") \x7b discard; \x7d\n  gl_FragColor = " ++ b.colorExpression ++
         ";\n  gl_FragColor.rgb *= gl_FragColor.a;\n") ++ "\n\x7d" := by
  show (fragmentShaderHeader ++ uniformDeclarations b.uniforms ++ fragmentFixedVaryings ++
        varyingDeclarations b.varyings ++
        ("\nvoid main(void) \x7b\n  if (" ++ b.discardExpression ++
         ") \x7b discard; \x7d\n  gl_FragColor = " ++ b.colorExpression ++
         ";\n  gl_FragColor.rgb *= gl_FragColor.a;\n")) ++ "" ++ "\n\x7d" = _
  rw [strAppendEmpty]

/-- Claim C2: for every style whose symbol shape tag is not one of `square`,
`circle`, `triangle`, `image`, `parseLiteralStyle` throws the unexpected
symbol type error and produces no result — in particular no builder and no
shader text. -/
theorem parse_unknown_symbol_type (compile : GlslCompiler) (style : LiteralStyle)
    (h1 : ¬ style.symbol.symbolType = "square")
    (h2 : ¬ style.symbol.symbolType = "image")
    (h3 : ¬ style.symbol.symbolType = "circle")
    (h4 : ¬ style.symbol.symbolType = "triangle") :
    parseLiteralStyle compile style =
      .error ("Unexpected symbol type: " ++ style.symbol.symbolType) := by
  unfold parseLiteralStyle opacityFilterFor
  rw [if_neg h1, if_neg h2, if_neg h3, if_neg h4]

/-- Witness for C2: the shape tag `hexagon` is rejected with the exact error
message, producing no result. -/
theorem parse_unknown_symbol_type_witness :
    (¬ ("hexagon" : String) = "square") ∧ (¬ ("hexagon" : String) = "image") ∧
    (¬ ("hexagon" : String) = "circle") ∧ (¬ ("hexagon" : String) = "triangle") ∧
    parseLiteralStyle specCompile c2Style = .error "Unexpected symbol type: hexagon" :=
  ⟨by decide, by decide, by decide, by decide,
   parse_unknown_symbol_type specCompile c2Style (by decide) (by decide) (by decide) (by decide)⟩

/-- Claim C9: the two render methods are pure projections of the builder
state: they leave every field of the builder unchanged (the source bodies
only read `this` and extend local copies via `concat`), and calling either
twice with the same argument and no intervening mutation yields identical
strings. -/
theorem render_methods_are_pure (b : ShaderBuilder) (forHitDetection : Bool) :
    (b.getSymbolVertexShaderRun forHitDetection).2 = b ∧
    (b.getSymbolFragmentShaderRun forHitDetection).2 = b ∧
    ((b.getSymbolVertexShaderRun forHitDetection).2.getSymbolVertexShaderRun forHitDetection).1 =
      (b.getSymbolVertexShaderRun forHitDetection).1 ∧
    ((b.getSymbolFragmentShaderRun forHitDetection).2.getSymbolFragmentShaderRun
        forHitDetection).1 =
      (b.getSymbolFragmentShaderRun forHitDetection).1 ∧
    (b.getSymbolVertexShaderRun forHitDetection).2.uniforms = b.uniforms ∧
    (b.getSymbolVertexShaderRun forHitDetection).2.attributes = b.attributes ∧
    (b.getSymbolVertexShaderRun forHitDetection).2.varyings = b.varyings ∧
    (b.getSymbolVertexShaderRun forHitDetection).2.colorExpression = b.colorExpression ∧
    (b.getSymbolVertexShaderRun forHitDetection).2.discardExpression = b.discardExpression :=
  ⟨rfl, rfl, rfl, rfl, rfl, rfl, rfl, rfl, rfl⟩

/-- Claim C10: an `image` symbol without a source compiles without error:
the opacity mask is `1.0`, and the whole compilation result — builder
(hence no sampler uniform and no texture factor in the color expression),
attribute bindings and uniform bindings — is the one produced for a
`square` symbol with identical other fields. -/
theorem image_without_src_is_square (compile : GlslCompiler) (style : LiteralStyle) :
    (parseLiteralStyle compile
        { style with symbol := { style.symbol with symbolType := "image", src := none } }).isOk
      = true
    ∧ parseLiteralStyle compile
        { style with symbol := { style.symbol with symbolType := "image", src := none } } =
      parseLiteralStyle compile
        { style with symbol := { style.symbol with symbolType := "square", src := none } }
    ∧ (∀ visibleSize, opacityFilterFor "image" visibleSize = .ok "1.0") :=
  ⟨rfl, rfl, fun _ => rfl⟩

/-- Claim C6 (amended): `parseLiteralStyle` behaves exactly as if the
defaults were substituted into the style first, and consumes the style
fields only through `defaultedFields`, which applies the defaults as
follows: `size`, `opacity` and `rotation` default exactly when the field is
`undefined` — every present value, including `0`, is kept — while `color`,
`texture-rectangle` and `offset` keep a present value exactly when it is
truthy and default both when the field is absent and when its present value
is falsy. -/
theorem parse_defaulting (compile : GlslCompiler) (style : LiteralStyle) :
    parseLiteralStyle compile style = parseLiteralStyle compile (explicitDefaults style)
    ∧ parsedVertex compile style = vertexParse compile (defaultedFields style.symbol)
    ∧ parsedFragment compile style =
        fragmentParse compile (defaultedFields style.symbol)
          (fragContext0 (parsedVertex compile style).ctx)
    ∧ (∀ (s : SymbolStyle) (v : JSVal), (defaultedFields { s with size := some v }).size = v)
    ∧ (∀ (s : SymbolStyle), (defaultedFields { s with size := none }).size = .num 1)
    ∧ (∀ (s : SymbolStyle) (v : JSVal),
        (defaultedFields { s with opacity := some v }).opacity = v)
    ∧ (∀ (s : SymbolStyle), (defaultedFields { s with opacity := none }).opacity = .num 1)
    ∧ (∀ (s : SymbolStyle) (v : JSVal),
        (defaultedFields { s with rotation := some v }).rotation = v)
    ∧ (∀ (s : SymbolStyle), (defaultedFields { s with rotation := none }).rotation = .num 0)
    ∧ (∀ (s : SymbolStyle) (v : JSVal), v.truthy = true →
        (defaultedFields { s with color := some v }).color = v)
    ∧ (∀ (s : SymbolStyle) (v : JSVal), v.truthy = false →
        (defaultedFields { s with color := some v }).color = .str "white")
    ∧ (∀ (s : SymbolStyle), (defaultedFields { s with color := none }).color = .str "white")
    ∧ (∀ (s : SymbolStyle) (v : JSVal), v.truthy = true →
        (defaultedFields { s with textureCoord := some v }).texCoord = v)
    ∧ (∀ (s : SymbolStyle) (v : JSVal), v.truthy = false →
        (defaultedFields { s with textureCoord := some v }).texCoord =
          .arr [.num 0, .num 0, .num 1, .num 1])
    ∧ (∀ (s : SymbolStyle), (defaultedFields { s with textureCoord := none }).texCoord =
        .arr [.num 0, .num 0, .num 1, .num 1])
    ∧ (∀ (s : SymbolStyle) (v : JSVal), v.truthy = true →
        (defaultedFields { s with offset := some v }).offset = v)
    ∧ (∀ (s : SymbolStyle) (v : JSVal), v.truthy = false →
        (defaultedFields { s with offset := some v }).offset = .arr [.num 0, .num 0])
    ∧ (∀ (s : SymbolStyle),
        (defaultedFields { s with offset := none }).offset = .arr [.num 0, .num 0]) := by
  refine ⟨?_, rfl, rfl, fun s v => rfl, fun s => rfl, fun s v => rfl, fun s => rfl,
    fun s v => rfl, fun s => rfl, ?_, ?_, fun s => rfl, ?_, ?_, fun s => rfl, ?_, ?_,
    fun s => rfl⟩
  · simp only [parseLiteralStyle, visibleSizeOf_explicit, buildParseResult_explicit]
    exact rfl
  all_goals intro s v hv
  all_goals simp [defaultedFields, falsyDefault, hv]

/-- Witness for C6: under the concrete compiler, substituting the explicit
defaults leaves the compilation unchanged; a present `0` for size, opacity
and rotation is preserved while their absence yields the defaults; a truthy
color is kept and a present empty-string color, like an absent one, becomes
`white`. -/
theorem parse_defaulting_witness :
    parseLiteralStyle specCompile c1Style = parseLiteralStyle specCompile (explicitDefaults c1Style)
    ∧ (defaultedFields { symbolType := "square", size := some (.num 0) }).size = .num 0
    ∧ (defaultedFields { symbolType := "square" }).size = .num 1
    ∧ (defaultedFields { symbolType := "square", opacity := some (.num 0) }).opacity = .num 0
    ∧ (defaultedFields { symbolType := "square" }).opacity = .num 1
    ∧ (defaultedFields { symbolType := "square", rotation := some (.num 0) }).rotation = .num 0
    ∧ (defaultedFields { symbolType := "square" }).rotation = .num 0
    ∧ (defaultedFields { symbolType := "square", color := some (.str "red") }).color = .str "red"
    ∧ (defaultedFields { symbolType := "square", color := some (.str "") }).color = .str "white"
    ∧ (defaultedFields { symbolType := "square" }).color = .str "white" := by
  have T := parse_defaulting specCompile c1Style
  exact ⟨T.1,
    T.2.2.2.1 { symbolType := "square" } (.num 0),
    T.2.2.2.2.1 { symbolType := "square" },
    T.2.2.2.2.2.1 { symbolType := "square" } (.num 0),
    T.2.2.2.2.2.2.1 { symbolType := "square" },
    T.2.2.2.2.2.2.2.1 { symbolType := "square" } (.num 0),
    T.2.2.2.2.2.2.2.2.1 { symbolType := "square" },
    T.2.2.2.2.2.2.2.2.2.1 { symbolType := "square" } (.str "red") rfl,
    T.2.2.2.2.2.2.2.2.2.2.1 { symbolType := "square" } (.str "") rfl,
    T.2.2.2.2.2.2.2.2.2.2.2.1 { symbolType := "square" }⟩

/-- Counterexample for C6: a present empty-string color is falsy, so the
source replaces it with the default `white` even though the field is not
absent — the default is not applied "exactly when the field is absent". -/
theorem parse_defaulting_counterexample :
    (defaultedFields c6CounterSymbol).color = .str "white" ∧
    c6CounterSymbol.color = some (.str "") ∧
    ¬ ((defaultedFields c6CounterSymbol).color = .str "") :=
  ⟨rfl, rfl, fun hcontra => absurd (JSVal.str.inj hcontra) (by decide)⟩

/-- Claim C4: relative to the non-hit-detection variant, the hit-detection
vertex program is exactly the one obtained by adding the single attribute
`vec4 a_hitColor` and the single bridging varying `v_hitColor` to the
builder, and the hit-detection fragment program differs from the
non-hit-detection program of the varying-extended builder only in that the
fixed two-statement color-override tail occupies the slot (after the normal
color assignment and alpha premultiplication, before the closing brace) that
is empty otherwise; every other generated character is identical. -/
theorem hit_detection_shader_difference (b : ShaderBuilder) :
    b.getSymbolVertexShader true =
      ((b.addAttribute "vec4 a_hitColor").addVarying "v_hitColor" "vec4"
        "a_hitColor").getSymbolVertexShader false
    ∧ ∃ pre,
        (b.addVarying "v_hitColor" "vec4" "a_hitColor").getSymbolFragmentShader false =
          pre ++ "\n\x7d"
        ∧ b.getSymbolFragmentShader true = pre ++ hitDetectionBypassTail ++ "\n\x7d" := by
  refine ⟨rfl, fragmentShaderHeader ++ uniformDeclarations b.uniforms ++ fragmentFixedVaryings ++
      varyingDeclarations (b.varyings ++ [hitVarying]) ++
      ("\nvoid main(void) \x7b\n  if (" ++ b.discardExpression ++
       ") \x7b discard; \x7d\n  gl_FragColor = " ++ b.colorExpression ++
       ";\n  gl_FragColor.rgb *= gl_FragColor.a;\n"), ?_, rfl⟩
  exact getSymbolFragmentShader_false_eq (b.addVarying "v_hitColor" "vec4" "a_hitColor")

/-- Claim C5 (amended): in both modes the generated vertex program opens with
the fixed header declaring the six hardcoded uniforms (`u_projectionMatrix`,
`u_offsetScaleMatrix`, `u_offsetRotateMatrix`, `u_time`, `u_zoom`,
`u_resolution`), then the user uniform declarations, then the two fixed
per-vertex attributes (`vec2 a_position` and the vertex-in-quad index
`float a_index`), then the user attribute declarations, then the built-in
varyings `v_texCoord` and `v_quadCoord`, then the user varying declarations,
before the program body. -/
theorem vertex_skeleton_structure (b : ShaderBuilder) (forHitDetection : Bool) :
    ∃ t, b.getSymbolVertexShader forHitDetection =
      vertexShaderHeader ++ uniformDeclarations b.uniforms ++
      vertexFixedAttributes ++
      attributeDeclarations (hitAttributes b.attributes forHitDetection) ++
      vertexFixedVaryings ++
      varyingDeclarations (hitVaryings b.varyings forHitDetection) ++ t :=
  ⟨("\nvoid main(void) \x7b\n  mat4 offsetMatrix = " ++
       (if b.rotateWithView then "u_offsetScaleMatrix * u_offsetRotateMatrix"
        else "u_offsetScaleMatrix") ++
   ";\n  vec2 halfSize = " ++ b.sizeExpression ++ " * 0.5;\n  vec2 offset = " ++
   b.offsetExpression ++ ";\n  float angle = " ++ b.rotationExpression ++
   ";\n  float offsetX;\n  float offsetY;\n  if (a_index == 0.0) \x7b\n    offsetX = (offset.x - halfSize.x) * cos(angle) + (offset.y - halfSize.y) * sin(angle);\n    offsetY = (offset.y - halfSize.y) * cos(angle) - (offset.x - halfSize.x) * sin(angle);\n  \x7d else if (a_index == 1.0) \x7b\n    offsetX = (offset.x + halfSize.x) * cos(angle) + (offset.y - halfSize.y) * sin(angle);\n    offsetY = (offset.y - halfSize.y) * cos(angle) - (offset.x + halfSize.x) * sin(angle);\n  \x7d else if (a_index == 2.0) \x7b\n    offsetX = (offset.x + halfSize.x) * cos(angle) + (offset.y + halfSize.y) * sin(angle);\n    offsetY = (offset.y + halfSize.y) * cos(angle) - (offset.x + halfSize.x) * sin(angle);\n  \x7d else \x7b\n    offsetX = (offset.x - halfSize.x) * cos(angle) + (offset.y + halfSize.y) * sin(angle);\n    offsetY = (offset.y + halfSize.y) * cos(angle) - (offset.x - halfSize.x) * sin(angle);\n  \x7d\n  vec4 offsets = offsetMatrix * vec4(offsetX, offsetY, 0.0, 0.0);\n  gl_Position = u_projectionMatrix * vec4(a_position, 0.0, 1.0) + offsets;\n  vec4 texCoord = " ++
   b.texCoordExpression ++
   ";\n  float u = a_index == 0.0 || a_index == 3.0 ? texCoord.s : texCoord.p;\n  float v = a_index == 2.0 || a_index == 3.0 ? texCoord.t : texCoord.q;\n  v_texCoord = vec2(u, v);\n  u = a_index == 0.0 || a_index == 3.0 ? 0.0 : 1.0;\n  v = a_index == 2.0 || a_index == 3.0 ? 0.0 : 1.0;\n  v_quadCoord = vec2(u, v);\n" ++
   varyingAssignments (hitVaryings b.varyings forHitDetection) ++ "\n\x7d"), rfl⟩

/-- Counterexample for C5: the vertex skeleton's fixed attribute block
consists of exactly two per-vertex attribute declarations, not three. -/
theorem vertex_skeleton_attribute_count :
    vertexFixedAttributes =
      "\n" ++
        String.intercalate "\n" ["attribute vec2 a_position;", "attribute float a_index;"] ++
        "\n"
    ∧ (["attribute vec2 a_position;", "attribute float a_index;"] : List String).length = 2
    ∧ ¬ ((["attribute vec2 a_position;", "attribute float a_index;"] : List String).length = 3) :=
  ⟨rfl, rfl, by decide⟩

/-- Claim C8 (amended): the fragment-discard expression is the logical
negation of the compiled filter exactly when the style's filter is present
and truthy; when the filter is absent — or present but falsy, such as the
literal `false`, which the source's truthiness test skips — the discard
expression keeps its default `false`. -/
theorem filter_discard_expression (compile : GlslCompiler) (style : LiteralStyle)
    (h : (parseLiteralStyle compile style).isOk = true) :
    (parseLiteralStyle compile style).map (fun r => r.builder.discardExpression) =
      .ok (match (filterResult compile style).1 with
           | some parsedFilter => "!" ++ parsedFilter
           | none => "false")
    ∧ (∀ ctx, filterParse compile none ctx = (none, ctx))
    ∧ (∀ f ctx, f.truthy = false → filterParse compile (some f) ctx = (none, ctx))
    ∧ (∀ f ctx, f.truthy = true →
        (filterParse compile (some f) ctx).1 = some (compile ctx f ValueTypes.BOOLEAN).1) := by
  refine ⟨?_, fun ctx => rfl, ?_, ?_⟩
  · cases hp : opacityFilterFor style.symbol.symbolType (visibleSizeOf compile style) with
    | error e =>
        exfalso
        unfold parseLiteralStyle at h
        rw [hp] at h
        simp [Except.isOk, Except.toBool] at h
    | ok mask =>
        rw [parse_ok compile style mask hp, buildParseResult_eq]
        simp [Except.map]
  · intro f ctx hf
    simp [filterParse, hf]
  · intro f ctx hf
    simp [filterParse, hf]

/-- Counterexample for C8: the style containing the filter expression
`false` (present, but falsy) keeps the default discard expression `false`
instead of the negation `!false` of the compiled filter. -/
theorem filter_discard_expression_counterexample :
    (parseLiteralStyle specCompile c8CounterStyle).map (fun r => r.builder.discardExpression) =
      .ok "false"
    ∧ (specCompile (parsedFragment specCompile c8CounterStyle).ctx (.bool false)
        ValueTypes.BOOLEAN).1 = "false"
    ∧ ("false" : String) ≠ "!" ++ "false" :=
  ⟨rfl, rfl, by decide⟩

/-- Witness for C8: a truthy filter expression compiles to the negated
discard expression, and the `filterParse` case facts hold at concrete
inputs. -/
theorem filter_discard_expression_witness :
    (parseLiteralStyle specCompile c8WitnessStyle).isOk = true
    ∧ (parseLiteralStyle specCompile c8WitnessStyle).map
        (fun r => r.builder.discardExpression) = .ok "!>(v_speed, 5.0)"
    ∧ filterParse specCompile none vertContext0 = (none, vertContext0)
    ∧ filterParse specCompile (some (.bool false)) vertContext0 = (none, vertContext0)
    ∧ (filterParse specCompile (some (.num 3)) vertContext0).1 = some "3.0" := by
  have T := filter_discard_expression specCompile c8WitnessStyle rfl
  exact ⟨rfl, T.1, T.2.1 vertContext0, T.2.2.1 (.bool false) vertContext0 rfl,
    T.2.2.2 (.num 3) vertContext0 rfl⟩

/-- Claim C3 (amended): one `float` uniform is declared per referenced style
variable, with a registered value producer that throws at evaluation time
whenever `style.variables[varName]` is `undefined` — the variable map is
absent, the key is absent, or the key is present with an `undefined` value —
converts a string value to its code via the shared literal table, and yields
the sentinel `-9999999` when the string has no assigned code. -/
theorem style_variable_uniforms (compile : GlslCompiler) (style : LiteralStyle)
    (h : (parseLiteralStyle compile style).isOk = true) :
    (parseLiteralStyle compile style).map (fun r => r.uniforms) =
      .ok (((finalFragContext compile style).variables'.map
              (fun varName =>
                (uniformNameForVariable varName,
                 UniformValue.value
                   (variableUniformValue style.variables' (finalLiteralsMap compile style)
                     varName)))) ++
           (if hasImageTexture style.symbol then
              [("u_texture",
                UniformValue.texture
                  { crossOrigin := crossOriginOf style.symbol, src := srcOf style.symbol })]
            else []))
    ∧ (parseLiteralStyle compile style).map (fun r => r.builder.uniforms) =
      .ok (((finalFragContext compile style).variables'.map
              (fun varName => "float " ++ uniformNameForVariable varName)) ++
           (if hasImageTexture style.symbol then ["sampler2D u_texture"] else []))
    ∧ (∀ m v, variableUniformValue none m v =
        .error ("The following variable is missing from the style: " ++ v))
    ∧ (∀ m v, variableUniformValue (some [(v, none)]) m v =
        .error ("The following variable is missing from the style: " ++ v))
    ∧ (∀ m v s, getStringNumberEquivalent m s = none →
        variableUniformValue (some [(v, some (.str s))]) m v = .ok (.num (-9999999)))
    ∧ (∀ m v s code, getStringNumberEquivalent m s = some code →
        variableUniformValue (some [(v, some (.str s))]) m v = .ok (.num code))
    ∧ (∀ m v n, variableUniformValue (some [(v, some (.num n))]) m v = .ok (.num n)) := by
  refine ⟨?_, ?_, fun m v => rfl, ?_, ?_, ?_, ?_⟩
  · cases hp : opacityFilterFor style.symbol.symbolType (visibleSizeOf compile style) with
    | error e =>
        exfalso
        unfold parseLiteralStyle at h
        rw [hp] at h
        simp [Except.isOk, Except.toBool] at h
    | ok mask =>
        rw [parse_ok compile style mask hp, buildParseResult_eq]
        simp [Except.map]
  · cases hp : opacityFilterFor style.symbol.symbolType (visibleSizeOf compile style) with
    | error e =>
        exfalso
        unfold parseLiteralStyle at h
        rw [hp] at h
        simp [Except.isOk, Except.toBool] at h
    | ok mask =>
        rw [parse_ok compile style mask hp, buildParseResult_eq]
        simp [Except.map]
  · intro m v
    simp [variableUniformValue, jsVarLookup, List.find?]
  · intro m v s hs
    simp [variableUniformValue, jsVarLookup, List.find?, hs]
  · intro m v s code hs
    simp [variableUniformValue, jsVarLookup, List.find?, hs]
  · intro m v n
    simp [variableUniformValue, jsVarLookup, List.find?]

/-- Counterexample for C3: when the variable key is present but its value is
`undefined`, the registered value producer throws the missing-variable error
instead of resolving to the sentinel `-9999999`. -/
theorem style_variable_uniforms_counterexample :
    (parseLiteralStyle specCompile c3CounterStyle).map (fun r => r.uniforms) =
      .ok [("u_var_mycolor",
            UniformValue.value
              (.error "The following variable is missing from the style: mycolor"))]
    ∧ (Except.error "The following variable is missing from the style: mycolor" :
        Except String JSVal) ≠ .ok (.num (-9999999)) :=
  ⟨rfl, fun hcontra => nomatch hcontra⟩

/-- Witness for C3: a referenced variable yields one float uniform; a string
value with no assigned code resolves to the sentinel, a string value with an
assigned code resolves to that code, a numeric value passes through, and an
absent or `undefined`-valued variable throws. -/
theorem style_variable_uniforms_witness :
    (parseLiteralStyle specCompile c3WitnessStyle).isOk = true
    ∧ (parseLiteralStyle specCompile c3WitnessStyle).map (fun r => r.uniforms) =
        .ok [("u_var_c", UniformValue.value (.ok (.num (-9999999))))]
    ∧ (parseLiteralStyle specCompile c3WitnessStyle).map (fun r => r.builder.uniforms) =
        .ok ["float u_var_c"]
    ∧ variableUniformValue none [] "x" =
        .error "The following variable is missing from the style: x"
    ∧ variableUniformValue (some [("x", none)]) [] "x" =
        .error "The following variable is missing from the style: x"
    ∧ variableUniformValue (some [("x", some (.str "zzz"))]) [] "x" = .ok (.num (-9999999))
    ∧ variableUniformValue (some [("x", some (.str "red"))]) [("red", 7)] "x" = .ok (.num 7)
    ∧ variableUniformValue (some [("x", some (.num 42))]) [] "x" = .ok (.num 42) := by
  have T := style_variable_uniforms specCompile c3WitnessStyle rfl
  exact ⟨rfl, T.1, T.2.1, T.2.2.1 [] "x", T.2.2.2.1 [] "x",
    T.2.2.2.2.1 [] "x" "zzz" rfl, T.2.2.2.2.2.1 [("red", 7)] "x" "red" 7 rfl,
    T.2.2.2.2.2.2 [] "x" 42⟩

/-- Claim C7: every feature attribute referenced fragment-side is registered
vertex-side when not already known, bridged by a scalar varying
`v_<name>` assigned from `a_<name>`, declared as a vertex attribute
`float a_<name>`, and bound by a callback that reads the property by name,
converts a string value via the shared literal table, and returns `-9999999`
when the value is `undefined`. -/
theorem feature_attribute_bridging (compile : GlslCompiler) (style : LiteralStyle)
    (h : (parseLiteralStyle compile style).isOk = true) :
    (parseLiteralStyle compile style).map (fun r => r.builder.varyings) =
      .ok ((finalFragContext compile style).attributes.map
             (fun attrName =>
               { name := "v_" ++ attrName, type := "float",
                 expression := "a_" ++ attrName : VaryingDescription }))
    ∧ (parseLiteralStyle compile style).map (fun r => r.builder.attributes) =
      .ok ((finalVertexAttributes compile style).map (fun attrName => "float a_" ++ attrName))
    ∧ (parseLiteralStyle compile style).map (fun r => r.attributes) =
      .ok ((finalVertexAttributes compile style).map
             (fun attributeName =>
               { name := attributeName,
                 callback := attributeCallback (finalLiteralsMap compile style) attributeName :
                 AttributeDescription }))
    ∧ (∀ n, n ∈ (finalFragContext compile style).attributes →
        n ∈ finalVertexAttributes compile style)
    ∧ (∀ m n props, props n = none → attributeCallback m n props = .num (-9999999))
    ∧ (∀ m n props s, props n = some (.str s) → getStringNumberEquivalent m s = none →
        attributeCallback m n props = .num (-9999999))
    ∧ (∀ m n props s code, props n = some (.str s) → getStringNumberEquivalent m s = some code →
        attributeCallback m n props = .num code)
    ∧ (∀ m n props x, props n = some (.num x) → attributeCallback m n props = .num x) := by
  refine ⟨?_, ?_, ?_, ?_, ?_, ?_, ?_, ?_⟩
  · cases hp : opacityFilterFor style.symbol.symbolType (visibleSizeOf compile style) with
    | error e =>
        exfalso
        unfold parseLiteralStyle at h
        rw [hp] at h
        simp [Except.isOk, Except.toBool] at h
    | ok mask =>
        rw [parse_ok compile style mask hp, buildParseResult_eq]
        simp [Except.map]
  · cases hp : opacityFilterFor style.symbol.symbolType (visibleSizeOf compile style) with
    | error e =>
        exfalso
        unfold parseLiteralStyle at h
        rw [hp] at h
        simp [Except.isOk, Except.toBool] at h
    | ok mask =>
        rw [parse_ok compile style mask hp, buildParseResult_eq]
        simp [Except.map]
  · cases hp : opacityFilterFor style.symbol.symbolType (visibleSizeOf compile style) with
    | error e =>
        exfalso
        unfold parseLiteralStyle at h
        rw [hp] at h
        simp [Except.isOk, Except.toBool] at h
    | ok mask =>
        rw [parse_ok compile style mask hp, buildParseResult_eq]
        simp [Except.map]
  · intro n hn
    exact dedup_foldl_mem _ _ _ hn
  · intro m n props hp
    simp [attributeCallback, hp]
  · intro m n props s hp hs
    simp [attributeCallback, hp, hs]
  · intro m n props s code hp hs
    simp [attributeCallback, hp, hs]
  · intro m n props x hp
    simp [attributeCallback, hp]

/-- Witness for C7: a style whose color reads `feature.get('speed')`
produces the varying `v_speed` bridging `a_speed`, the vertex attribute
`float a_speed`, and a binding whose callback returns the sentinel for an
absent or unassigned value, the assigned code for a known string, and a
number unchanged. -/
theorem feature_attribute_bridging_witness :
    (parseLiteralStyle specCompile c7Style).isOk = true
    ∧ (parseLiteralStyle specCompile c7Style).map (fun r => r.builder.varyings) =
        .ok [{ name := "v_speed", type := "float", expression := "a_speed" }]
    ∧ (parseLiteralStyle specCompile c7Style).map (fun r => r.builder.attributes) =
        .ok ["float a_speed"]
    ∧ (parseLiteralStyle specCompile c7Style).map (fun r => r.attributes) =
        .ok [{ name := "speed", callback := attributeCallback [] "speed" }]
    ∧ ("speed" ∈ finalVertexAttributes specCompile c7Style)
    ∧ attributeCallback [] "speed" (fun _ => none) = .num (-9999999)
    ∧ attributeCallback [] "speed"
        (fun k => if k = "speed" then some (.str "fast") else none) = .num (-9999999)
    ∧ attributeCallback [("fast", 3)] "speed"
        (fun k => if k = "speed" then some (.str "fast") else none) = .num 3
    ∧ attributeCallback [] "speed"
        (fun k => if k = "speed" then some (.num 88) else none) = .num 88 := by
  have T := feature_attribute_bridging specCompile c7Style rfl
  exact ⟨rfl, T.1, T.2.1, T.2.2.1,
    T.2.2.2.1 "speed" (List.mem_singleton.mpr rfl),
    T.2.2.2.2.1 [] "speed" (fun _ => none) rfl,
    T.2.2.2.2.2.1 [] "speed" _ "fast" rfl rfl,
    T.2.2.2.2.2.2.1 [("fast", 3)] "speed" _ "fast" 3 rfl rfl,
    T.2.2.2.2.2.2.2 [] "speed" _ 88 rfl⟩

/-- Claim C1: for every accepted style, the color expression stored in the
builder is `vec4(color.rgb, color.a * opacity * mask)` built from the
compiled color and opacity (extended by the texture factor only in the
image-with-source case), where the mask is the shape-dependent opacity
filter and is `1.0` for the shapes `square` and `image`; opacity and mask
multiply only the alpha component, the RGB part is `color.rgb` untouched. -/
theorem color_expression_assembly (compile : GlslCompiler) (style : LiteralStyle)
    (h : style.symbol.symbolType = "square" ∨ style.symbol.symbolType = "circle" ∨
         style.symbol.symbolType = "triangle" ∨ style.symbol.symbolType = "image") :
    ∃ mask,
      opacityFilterFor style.symbol.symbolType (visibleSizeOf compile style) = .ok mask
      ∧ (parseLiteralStyle compile style).map (fun r => r.builder.colorExpression) =
          .ok (if hasImageTexture style.symbol then
                 baseColorExpr compile style mask ++ " * texture2D(u_texture, v_texCoord)"
               else baseColorExpr compile style mask)
      ∧ ((style.symbol.symbolType = "square" ∨ style.symbol.symbolType = "image") →
          mask = "1.0") := by
  rcases h with h | h | h | h
  · refine ⟨"1.0", ?_, ?_, fun _ => rfl⟩
    · rw [h]
      exact rfl
    · have hm : opacityFilterFor style.symbol.symbolType (visibleSizeOf compile style) =
          .ok "1.0" := by
        rw [h]
        exact rfl
      rw [parse_ok compile style "1.0" hm, buildParseResult_eq]
      simp [Except.map]
  · refine ⟨circleMask (visibleSizeOf compile style), ?_, ?_, ?_⟩
    · rw [h]
      exact rfl
    · have hm : opacityFilterFor style.symbol.symbolType (visibleSizeOf compile style) =
          .ok (circleMask (visibleSizeOf compile style)) := by
        rw [h]
        exact rfl
      rw [parse_ok compile style _ hm, buildParseResult_eq]
      simp [Except.map]
    · intro hsq
      rcases hsq with hs | hs
      · exact absurd (h.symm.trans hs) (by decide)
      · exact absurd (h.symm.trans hs) (by decide)
  · refine ⟨triangleMask (visibleSizeOf compile style), ?_, ?_, ?_⟩
    · rw [h]
      exact rfl
    · have hm : opacityFilterFor style.symbol.symbolType (visibleSizeOf compile style) =
          .ok (triangleMask (visibleSizeOf compile style)) := by
        rw [h]
        exact rfl
      rw [parse_ok compile style _ hm, buildParseResult_eq]
      simp [Except.map]
    · intro hsq
      rcases hsq with hs | hs
      · exact absurd (h.symm.trans hs) (by decide)
      · exact absurd (h.symm.trans hs) (by decide)
  · refine ⟨"1.0", ?_, ?_, fun _ => rfl⟩
    · rw [h]
      exact rfl
    · have hm : opacityFilterFor style.symbol.symbolType (visibleSizeOf compile style) =
          .ok "1.0" := by
        rw [h]
        exact rfl
      rw [parse_ok compile style "1.0" hm, buildParseResult_eq]
      simp [Except.map]

/-- Witness for C1: the square style of size 2 stores exactly the assembled
`vec4(color.rgb, color.a * opacity * 1.0)` expression. -/
theorem color_expression_assembly_witness :
    (c1Style.symbol.symbolType = "square" ∨ c1Style.symbol.symbolType = "circle" ∨
     c1Style.symbol.symbolType = "triangle" ∨ c1Style.symbol.symbolType = "image")
    ∧ (parseLiteralStyle specCompile c1Style).map (fun r => r.builder.colorExpression) =
        .ok (baseColorExpr specCompile c1Style "1.0") := by
  refine ⟨Or.inl rfl, ?_⟩
  obtain ⟨mask, h1, h2, h3⟩ := color_expression_assembly specCompile c1Style (Or.inl rfl)
  have hm : mask = "1.0" :=
    Except.ok.inj
      (h1.symm.trans
        (show opacityFilterFor c1Style.symbol.symbolType (visibleSizeOf specCompile c1Style) =
            Except.ok "1.0" from rfl))
  rw [hm] at h2
  exact h2

end OlShaderBuild
